import Mathlib

/-!
Verification of the conversational-analytics backend: a shallow embedding of
the Express `/api/chat` orchestrator (`backend/services/gemini.js`, routes
section) together with the Gemini service (`generateSQL`, `explainResults`)
and the BigQuery service (`_getDatasetLocation`, `executeQuery`,
`getAllTableSchemas`, `getDatasetId`) from `backend/services/bigquery.js`.

Remote capabilities (the generative-language API and the warehouse API) are
modelled as oracles: an `Env` records, for the single request under study,
the outcome each remote call would produce.  All string processing done by
the code itself (trimming, markdown-fence stripping, uppercasing, substring
search, trailing-period removal) is embedded faithfully over `List Char`,
matching the JavaScript semantics on the ASCII inputs the code manipulates.
-/

namespace ConvAnalytics

/-- The backtick character, written via its code point. -/
def tick : Char := Char.ofNat 96

/-- A triple-backtick sequence, the markdown fence marker. -/
def ttt : List Char := [tick, tick, tick]

/-- JavaScript `String.prototype.trim` on a character list: drop leading and
trailing whitespace. -/
def trimChars (l : List Char) : List Char :=
  ((l.dropWhile Char.isWhitespace).reverse.dropWhile Char.isWhitespace).reverse

/-- JavaScript `s.trim()`. -/
def trimS (s : String) : String :=
  String.mk (trimChars s.data)

/-- JavaScript `s.toUpperCase()` (ASCII-faithful). -/
def jsToUpper (s : String) : String :=
  String.mk (s.data.map Char.toUpper)

/-- JavaScript `s.includes(sub)`: `sub` occurs contiguously in `s`. -/
def jsIncludes (s sub : String) : Prop :=
  sub.data <:+: s.data

instance (s sub : String) : Decidable (jsIncludes s sub) :=
  List.decidableInfix sub.data s.data

/-- One pass of `sqlQuery.replace(/\x60\x60\x60sql\n?/g, '')`: scan left to
right, deleting each occurrence of three backticks followed by `sql` and an
optional newline, never rescanning emitted output (JavaScript `replace`
semantics). -/
def stripSqlFence : List Char → List Char
  | c1 :: c2 :: c3 :: c4 :: c5 :: c6 :: c7 :: rest7 =>
    if c1 = tick ∧ c2 = tick ∧ c3 = tick ∧ c4 = 's' ∧ c5 = 'q' ∧ c6 = 'l' then
      if c7 = '\n' then stripSqlFence rest7 else stripSqlFence (c7 :: rest7)
    else c1 :: stripSqlFence (c2 :: c3 :: c4 :: c5 :: c6 :: c7 :: rest7)
  | c1 :: c2 :: c3 :: c4 :: c5 :: c6 :: [] =>
    if c1 = tick ∧ c2 = tick ∧ c3 = tick ∧ c4 = 's' ∧ c5 = 'q' ∧ c6 = 'l' then []
    else c1 :: stripSqlFence [c2, c3, c4, c5, c6]
  | c1 :: rest => c1 :: stripSqlFence rest
  | [] => []

/-- One pass of `sqlQuery.replace(/\x60\x60\x60\n?/g, '')`: delete each
occurrence of three backticks followed by an optional newline. -/
def stripFenceMarks : List Char → List Char
  | c1 :: c2 :: c3 :: c4 :: rest4 =>
    if c1 = tick ∧ c2 = tick ∧ c3 = tick then
      if c4 = '\n' then stripFenceMarks rest4 else stripFenceMarks (c4 :: rest4)
    else c1 :: stripFenceMarks (c2 :: c3 :: c4 :: rest4)
  | c1 :: c2 :: c3 :: [] =>
    if c1 = tick ∧ c2 = tick ∧ c3 = tick then []
    else c1 :: stripFenceMarks [c2, c3]
  | c1 :: rest => c1 :: stripFenceMarks rest
  | [] => []

/-- The normalization `generateSQL` applies to the model's raw text:
`response.text().trim()` followed by
`.replace(/\x60\x60\x60sql\n?/g, '').replace(/\x60\x60\x60\n?/g, '').trim()`. -/
def cleanSql (raw : String) : String :=
  String.mk (trimChars (stripFenceMarks (stripSqlFence (trimChars raw.data))))

/-- The normalization `explainResults` applies to the model's raw text:
trim, then remove one trailing period if present (`endsWith('.')` then
`slice(0, -1)`). -/
def stripTrailingPeriod (s : String) : String :=
  if s.data.getLast? = some '.' then String.mk s.data.dropLast else s

example : cleanSql "\x60\x60\x60sql\nSELECT 1\n\x60\x60\x60" = "SELECT 1" := by decide

example : cleanSql "  SELECT 2  " = "SELECT 2" := by decide

example : cleanSql "\x60\x60\x60sql\n\x60\x60\x60" = "" := by decide

example : stripTrailingPeriod "done." = "done" := by decide

/-- One column of a table schema (`metadata.schema.fields` entry). -/
structure Field where
  name : String
  type : String
  mode : Option String
  description : Option String
deriving Repr, DecidableEq

/-- A table schema as produced by `getTableSchema`. -/
structure TableSchema where
  tableName : String
  schema : List Field
  description : String
deriving Repr, DecidableEq

/-- One result row: a mapping from column name to scalar value. -/
abbrev Row := List (String × Int)

/-- A JavaScript value sitting in the `message` property of the request body:
either a string, or any non-string value (with its truthiness recorded). -/
inductive JsVal where
  | strVal (s : String)
  | nonString (truthy : Bool)
deriving Repr, DecidableEq

/-- The request body: either absent / not an object (destructuring
`const { message } = req.body` throws), or an object whose `message`
property may be missing. -/
inductive ReqBody where
  | noBody
  | reqBody (message : Option JsVal)
deriving Repr, DecidableEq

/-- The JSON document sent back by the handler, with the HTTP status.
Fields that a given branch does not put into the JSON stay `none`. -/
structure ChatResponse where
  status : Nat
  success : Option Bool := none
  error : Option String := none
  details : Option String := none
  generatedQuery : Option String := none
  userQuery : Option String := none
  sqlQuery : Option String := none
  explanation : Option String := none
  results : Option (List Row) := none
  resultCount : Option Nat := none
deriving Repr, DecidableEq

/-- Which external capabilities the handler invoked while serving the
request, and with which schema-context argument the SQL generator was
entered. -/
structure Trace where
  schemaCalled : Bool := false
  generateCalled : Bool := false
  genSchemasArg : Option (List TableSchema) := none
  executeCalled : Bool := false
  explainCalled : Bool := false
deriving Repr, DecidableEq

/-- Outcomes of the remote calls for the one request under study.
`.error m` means the corresponding call throws with message `m`. -/
structure Env where
  getAllTableSchemas : Except String (List TableSchema)
  getDatasetId : Except String String
  geminiInit : Except String Unit
  generateContent : Except String String
  executeQuery : Except String (List Row)
  explainContent : Except String String
deriving Repr

/-- `GeminiService.generateSQL`: run `_initialize` (its failure escapes
unwrapped), invoke the model, normalize the text; any failure of the remote
call is wrapped as `Failed to generate SQL: ...`. -/
def generateSQL (env : Env) (schemas : List TableSchema)
    (datasetId : Option String) : Except String String :=
  match env.geminiInit with
  | .error m => .error m
  | .ok _ =>
    match env.generateContent with
    | .error m => .error ("Failed to generate SQL: " ++ m)
    | .ok raw =>
      let _ := schemas
      let _ := datasetId
      .ok (cleanSql raw)

/-- `GeminiService.explainResults`: run `_initialize` (its failure escapes
unwrapped), then any failure of the remote call is swallowed and replaced by
the fixed string `Query executed successfully.`; on success the text is
trimmed and one trailing period is removed. -/
def explainResults (env : Env) (results : List Row) : Except String String :=
  match env.geminiInit with
  | .error m => .error m
  | .ok _ =>
    let _ := results
    match env.explainContent with
    | .error _ => .ok "Query executed successfully."
    | .ok t => .ok (stripTrailingPeriod (trimS t))

/-- `BigQueryService.executeQuery` as seen from the route: remote failures
are wrapped as `BigQuery execution failed: ...`. -/
def executeQueryService (env : Env) (query : String) : Except String (List Row) :=
  let _ := query
  match env.executeQuery with
  | .error m => .error ("BigQuery execution failed: " ++ m)
  | .ok rows => .ok rows

/-- The route's input validation
`!message || typeof message !== 'string' || message.trim().length === 0`:
returns the message string exactly when the check passes. -/
def msgValid : Option JsVal → Option String
  | some (.strVal s) => if trimS s = "" then none else some s
  | _ => none

/-- The `POST /api/chat` handler: validation, schema fetch (non-fatal), SQL
generation, empty-SQL guard, SELECT-substring safety gate, execution,
explanation (non-fatal), and response assembly; the outer catch turns an
exception thrown while reading the body into a 500. -/
def chatHandler (env : Env) (body : ReqBody) : ChatResponse × Trace :=
  match body with
  | .noBody =>
    ({ status := 500, error := some "Internal server error",
       details := some "Cannot destructure property of undefined body" }, {})
  | .reqBody message =>
    match msgValid message with
    | none =>
      ({ status := 400,
         error := some "Message is required and must be a non-empty string" }, {})
    | some msg =>
      let tableSchemas : List TableSchema :=
        match env.getAllTableSchemas with
        | .ok s => s
        | .error _ => []
      let tr1 : Trace := { schemaCalled := true }
      match env.getDatasetId with
      | .error m =>
        ({ status := 500, error := some "Failed to generate SQL query",
           details := some m }, tr1)
      | .ok datasetId =>
        let tr2 : Trace :=
          { tr1 with generateCalled := true, genSchemasArg := some tableSchemas }
        match generateSQL env tableSchemas (some datasetId) with
        | .error m =>
          ({ status := 500, error := some "Failed to generate SQL query",
             details := some m }, tr2)
        | .ok sqlQuery =>
          if sqlQuery = "" ∨ trimS sqlQuery = "" then
            ({ status := 500, error := some "Generated SQL query is empty" }, tr2)
          else
            let trimmedQuery := jsToUpper (trimS sqlQuery)
            if jsIncludes trimmedQuery "SELECT" then
              let tr3 : Trace := { tr2 with executeCalled := true }
              match executeQueryService env sqlQuery with
              | .error m =>
                ({ status := 500,
                   error := some "Failed to execute query on BigQuery",
                   details := some m, generatedQuery := some sqlQuery }, tr3)
              | .ok results =>
                let tr4 : Trace := { tr3 with explainCalled := true }
                let explanation : String :=
                  match explainResults env results with
                  | .error _ =>
                    "Query executed successfully. Found " ++
                      toString results.length ++ " result(s)."
                  | .ok e => e
                ({ status := 200, success := some true, userQuery := some msg,
                   sqlQuery := some sqlQuery, explanation := some explanation,
                   results := some results,
                   resultCount := some results.length }, tr4)
            else
              ({ status := 400,
                 error := some "Only SELECT queries are allowed for security reasons",
                 generatedQuery := some sqlQuery }, tr2)

/-- The mutable per-process state of `BigQueryService` relevant to location
resolution: the `datasetLocation` member, `null` before it is resolved
(`_initialize` seeds it with `process.env.BIGQUERY_LOCATION || null`). -/
structure BQState where
  datasetLocation : Option String
deriving Repr, DecidableEq

/-- Oracle for the warehouse metadata call inside `_getDatasetLocation`:
either the `location` field of the dataset metadata (possibly absent), or a
failure. -/
structure BQEnv where
  metadataLocation : Except String (Option String)
deriving Repr

/-- JavaScript `v || d` for an optional string `v`: the default wins when
`v` is absent or the empty string (both falsy). -/
def jsOrDefault (v : Option String) (d : String) : String :=
  match v with
  | none => d
  | some s => if s = "" then d else s

/-- The body of `_getDatasetLocation`'s try/catch: fetch the dataset
metadata, store `metadata.location || 'US'`, defaulting to `'US'` when the
metadata call fails. -/
def fetchDatasetLocation (env : BQEnv) : String × BQState :=
  match env.metadataLocation with
  | .ok v =>
    let loc := jsOrDefault v "US"
    (loc, ⟨some loc⟩)
  | .error _ => ("US", ⟨some "US"⟩)

/-- `BigQueryService._getDatasetLocation`: return the cached value when the
`datasetLocation` member is truthy, else resolve via metadata and cache. -/
def getDatasetLocation (st : BQState) (env : BQEnv) : String × BQState :=
  match st.datasetLocation with
  | some loc => if loc = "" then fetchDatasetLocation env else (loc, st)
  | none => fetchDatasetLocation env

/-- The options object `executeQuery` passes to `createQueryJob`. -/
structure QueryOptions where
  query : String
  location : String
deriving Repr, DecidableEq

/-- `BigQueryService.executeQuery` with its location resolution made
explicit: resolve the location (possibly updating the cached state), build
the options, run the job oracle `job`, wrapping failures. Returns the result,
the options used, and the state after the call. -/
def executeQueryBQ (st : BQState) (env : BQEnv)
    (job : QueryOptions → Except String (List Row)) (q : String) :
    Except String (List Row) × QueryOptions × BQState :=
  let r := getDatasetLocation st env
  let opts : QueryOptions := { query := q, location := r.1 }
  (match job opts with
   | .ok rows => .ok rows
   | .error m => .error ("BigQuery execution failed: " ++ m), opts, r.2)

section Examples

example :
    (chatHandler
      { getAllTableSchemas := .ok [], getDatasetId := .ok "ds",
        geminiInit := .ok (), generateContent := .ok "SELECT 1",
        executeQuery := .ok [[("cnt", (42 : Int))]],
        explainContent := .ok "One row." }
      (.reqBody (some (.strVal "count rows")))).1 =
    { status := 200, success := some true, userQuery := some "count rows",
      sqlQuery := some "SELECT 1", explanation := some "One row",
      results := some [[("cnt", (42 : Int))]], resultCount := some 1 } := by
  decide

example :
    (chatHandler
      { getAllTableSchemas := .ok [], getDatasetId := .ok "ds",
        geminiInit := .ok (), generateContent := .ok "DROP TABLE x",
        executeQuery := .ok [], explainContent := .ok "x" }
      (.reqBody (some (.strVal "drop it")))).1 =
    { status := 400,
      error := some "Only SELECT queries are allowed for security reasons",
      generatedQuery := some "DROP TABLE x" } := by
  decide

example :
    (chatHandler
      { getAllTableSchemas := .ok [], getDatasetId := .ok "ds",
        geminiInit := .ok (), generateContent := .ok "SELECT 1",
        executeQuery := .ok [], explainContent := .ok "x" }
      (.reqBody (some (.strVal "   ")))).1.status = 400 := by
  decide

end Examples

/-- Number of leading backticks of a character list. -/
def leadTicks : List Char → Nat
  | [] => 0
  | c :: rest => if c = tick then leadTicks rest + 1 else 0

theorem leadTicks_cons (c : Char) (m : List Char) :
    leadTicks (c :: m) = if c = tick then leadTicks m + 1 else 0 := rfl

theorem not_ttt_infix_nil : ¬ ttt <:+: ([] : List Char) := by
  simp [ttt]

theorem infixOfTail {l₁ l₂ : List Char} {a : Char} (h : l₁ <:+: l₂) :
    l₁ <:+: a :: l₂ :=
  List.infix_cons_iff.mpr (Or.inr h)

theorem not_ttt_infix_cons {c : Char} {m : List Char} (hm : ¬ ttt <:+: m)
    (h : c ≠ tick ∨ leadTicks m ≤ 1) : ¬ ttt <:+: c :: m := by
  intro hin
  rcases List.infix_cons_iff.mp hin with hp | hi
  · obtain ⟨r, hr⟩ := hp
    simp only [ttt, List.cons_append, List.nil_append, List.cons.injEq] at hr
    obtain ⟨hc, hm'⟩ := hr
    rcases h with hne | hle
    · exact hne hc.symm
    · rw [← hm'] at hle
      simp [leadTicks] at hle
  · exact hm hi

theorem leadTicks_le_one_of_not_two {c2 c3 : Char} (rest : List Char)
    (h : ¬ (c2 = tick ∧ c3 = tick)) : leadTicks (c2 :: c3 :: rest) ≤ 1 := by
  by_cases h2 : c2 = tick
  · have h3 : c3 ≠ tick := fun hh => h ⟨h2, hh⟩
    simp [leadTicks_cons, h2, h3]
  · simp [leadTicks_cons, h2]

/-- The common cons step for the two invariants of `stripFenceMarks`: when
the head is emitted unchanged, no triple backtick appears and the leading
tick count is preserved. -/
theorem stripFenceMarks_cons_step {c1 : Char} {rest : List Char}
    (ih : ¬ ttt <:+: stripFenceMarks rest ∧
      (leadTicks rest ≤ 2 → leadTicks (stripFenceMarks rest) = leadTicks rest))
    (hb : c1 ≠ tick ∨ leadTicks rest ≤ 1) :
    ¬ ttt <:+: c1 :: stripFenceMarks rest ∧
      (leadTicks (c1 :: rest) ≤ 2 →
        leadTicks (c1 :: stripFenceMarks rest) = leadTicks (c1 :: rest)) := by
  constructor
  · rcases hb with hc | hle
    · exact not_ttt_infix_cons ih.1 (Or.inl hc)
    · have he : leadTicks (stripFenceMarks rest) = leadTicks rest :=
        ih.2 (by omega)
      exact not_ttt_infix_cons ih.1 (Or.inr (he ▸ hle))
  · intro hle
    by_cases hc : c1 = tick
    · subst hc
      rw [leadTicks_cons, if_pos rfl] at hle ⊢
      rw [leadTicks_cons, if_pos rfl, ih.2 (by omega)]
    · rw [leadTicks_cons, if_neg hc, leadTicks_cons, if_neg hc]

/-- Main invariant of the second replace pass: its output never contains
three consecutive backticks, and on inputs with at most two leading
backticks the leading tick count is unchanged. -/
theorem stripFenceMarks_main (l : List Char) :
    ¬ ttt <:+: stripFenceMarks l ∧
      (leadTicks l ≤ 2 → leadTicks (stripFenceMarks l) = leadTicks l) := by
  induction l using stripFenceMarks.induct with
  | case1 c1 c2 c3 rest4 h ih =>
    obtain ⟨h1, h2, h3⟩ := h
    subst h1; subst h2; subst h3
    have e : stripFenceMarks (tick :: tick :: tick :: '\n' :: rest4) =
        stripFenceMarks rest4 := by
      simp [stripFenceMarks]
    rw [e]
    refine ⟨ih.1, fun hle => ?_⟩
    exfalso
    simp [leadTicks, show ('\n' : Char) ≠ tick from by decide] at hle
  | case2 c1 c2 c3 c4 rest4 h hnl ih =>
    obtain ⟨h1, h2, h3⟩ := h
    subst h1; subst h2; subst h3
    have e : stripFenceMarks (tick :: tick :: tick :: c4 :: rest4) =
        stripFenceMarks (c4 :: rest4) := by
      simp [stripFenceMarks, hnl]
    rw [e]
    refine ⟨ih.1, fun hle => ?_⟩
    exfalso
    simp [leadTicks] at hle
  | case3 c1 c2 c3 c4 rest4 h ih =>
    have e : stripFenceMarks (c1 :: c2 :: c3 :: c4 :: rest4) =
        c1 :: stripFenceMarks (c2 :: c3 :: c4 :: rest4) := by
      simp [stripFenceMarks, h]
    rw [e]
    by_cases hc : c1 = tick
    · subst hc
      have hb : ¬ (c2 = tick ∧ c3 = tick) := fun hh => h ⟨rfl, hh.1, hh.2⟩
      exact stripFenceMarks_cons_step ih
        (Or.inr (leadTicks_le_one_of_not_two _ hb))
    · exact stripFenceMarks_cons_step ih (Or.inl hc)
  | case4 c1 c2 c3 h =>
    obtain ⟨h1, h2, h3⟩ := h
    subst h1; subst h2; subst h3
    have e : stripFenceMarks [tick, tick, tick] = [] := by
      simp [stripFenceMarks]
    rw [e]
    refine ⟨not_ttt_infix_nil, fun hle => ?_⟩
    exfalso
    simp [leadTicks] at hle
  | case5 c1 c2 c3 h ih =>
    have e : stripFenceMarks [c1, c2, c3] = c1 :: stripFenceMarks [c2, c3] := by
      simp [stripFenceMarks, h]
    rw [e]
    by_cases hc : c1 = tick
    · subst hc
      have hb : ¬ (c2 = tick ∧ c3 = tick) := fun hh => h ⟨rfl, hh.1, hh.2⟩
      exact stripFenceMarks_cons_step ih
        (Or.inr (leadTicks_le_one_of_not_two _ hb))
    · exact stripFenceMarks_cons_step ih (Or.inl hc)
  | case6 c1 rest hlong hpair ih =>
    have e : stripFenceMarks (c1 :: rest) = c1 :: stripFenceMarks rest := by
      match rest, hlong, hpair with
      | [], _, _ => simp [stripFenceMarks]
      | [x], _, _ => simp [stripFenceMarks]
      | [x, y], _, hp => exact absurd rfl (fun hh => hp x y hh)
      | x :: y :: z :: r, hl, _ => exact absurd rfl (fun hh => hl x y z r hh)
    rw [e]
    have hshort : leadTicks rest ≤ 1 := by
      match rest, hlong, hpair with
      | [], _, _ => simp [leadTicks]
      | [x], _, _ => by_cases hx : x = tick <;> simp [leadTicks, hx]
      | [x, y], _, hp => exact absurd rfl (fun hh => hp x y hh)
      | x :: y :: z :: r, hl, _ => exact absurd rfl (fun hh => hl x y z r hh)
    exact stripFenceMarks_cons_step ih (Or.inr hshort)
  | case7 =>
    exact ⟨not_ttt_infix_nil, fun _ => rfl⟩

/-- If a list contains no triple backtick, the second replace pass keeps it
unchanged. -/
theorem stripFenceMarks_of_clean {l : List Char} (h : ¬ ttt <:+: l) :
    stripFenceMarks l = l := by
  induction l using stripFenceMarks.induct with
  | case1 c1 c2 c3 rest4 hm ih =>
    exfalso
    obtain ⟨h1, h2, h3⟩ := hm
    subst h1; subst h2; subst h3
    exact h ⟨[], '\n' :: rest4, by simp [ttt]⟩
  | case2 c1 c2 c3 c4 rest4 hm hnl ih =>
    exfalso
    obtain ⟨h1, h2, h3⟩ := hm
    subst h1; subst h2; subst h3
    exact h ⟨[], c4 :: rest4, by simp [ttt]⟩
  | case3 c1 c2 c3 c4 rest4 hm ih =>
    have h' : ¬ ttt <:+: c2 :: c3 :: c4 :: rest4 :=
      fun hh => h (infixOfTail hh)
    have e : stripFenceMarks (c1 :: c2 :: c3 :: c4 :: rest4) =
        c1 :: stripFenceMarks (c2 :: c3 :: c4 :: rest4) := by
      simp [stripFenceMarks, hm]
    rw [e, ih h']
  | case4 c1 c2 c3 hm =>
    exfalso
    obtain ⟨h1, h2, h3⟩ := hm
    subst h1; subst h2; subst h3
    exact h ⟨[], [], by simp [ttt]⟩
  | case5 c1 c2 c3 hm ih =>
    have h' : ¬ ttt <:+: [c2, c3] :=
      fun hh => h (infixOfTail hh)
    have e : stripFenceMarks [c1, c2, c3] = c1 :: stripFenceMarks [c2, c3] := by
      simp [stripFenceMarks, hm]
    rw [e, ih h']
  | case6 c1 rest hlong hpair ih =>
    have h' : ¬ ttt <:+: rest :=
      fun hh => h (infixOfTail hh)
    have e : stripFenceMarks (c1 :: rest) = c1 :: stripFenceMarks rest := by
      match rest, hlong, hpair with
      | [], _, _ => simp [stripFenceMarks]
      | [x], _, _ => simp [stripFenceMarks]
      | [x, y], _, hp => exact absurd rfl (fun hh => hp x y hh)
      | x :: y :: z :: r, hl, _ => exact absurd rfl (fun hh => hl x y z r hh)
    rw [e, ih h']
  | case7 => rfl

/-- If a list contains no triple backtick, the first replace pass keeps it
unchanged (the six-character marker starts with a triple backtick). -/
theorem stripSqlFence_of_clean {l : List Char} (h : ¬ ttt <:+: l) :
    stripSqlFence l = l := by
  induction l using stripSqlFence.induct with
  | case1 c1 c2 c3 c4 c5 c6 rest7 hm ih =>
    exfalso
    obtain ⟨h1, h2, h3, h4, h5, h6⟩ := hm
    subst h1; subst h2; subst h3
    exact h <| List.IsPrefix.isInfix
      ⟨c4 :: c5 :: c6 :: '\n' :: rest7, by simp [ttt]⟩
  | case2 c1 c2 c3 c4 c5 c6 c7 rest7 hm hnl ih =>
    exfalso
    obtain ⟨h1, h2, h3, h4, h5, h6⟩ := hm
    subst h1; subst h2; subst h3
    exact h <| List.IsPrefix.isInfix
      ⟨c4 :: c5 :: c6 :: c7 :: rest7, by simp [ttt]⟩
  | case3 c1 c2 c3 c4 c5 c6 c7 rest7 hm ih =>
    have h' : ¬ ttt <:+: c2 :: c3 :: c4 :: c5 :: c6 :: c7 :: rest7 :=
      fun hh => h (infixOfTail hh)
    have e : stripSqlFence (c1 :: c2 :: c3 :: c4 :: c5 :: c6 :: c7 :: rest7) =
        c1 :: stripSqlFence (c2 :: c3 :: c4 :: c5 :: c6 :: c7 :: rest7) := by
      simp [stripSqlFence, hm]
    rw [e, ih h']
  | case4 c1 c2 c3 c4 c5 c6 hm =>
    exfalso
    obtain ⟨h1, h2, h3, h4, h5, h6⟩ := hm
    subst h1; subst h2; subst h3
    exact h <| List.IsPrefix.isInfix ⟨[c4, c5, c6], by simp [ttt]⟩
  | case5 c1 c2 c3 c4 c5 c6 hm ih =>
    have h' : ¬ ttt <:+: [c2, c3, c4, c5, c6] :=
      fun hh => h (infixOfTail hh)
    have e : stripSqlFence [c1, c2, c3, c4, c5, c6] =
        c1 :: stripSqlFence [c2, c3, c4, c5, c6] := by
      simp [stripSqlFence, hm]
    rw [e, ih h']
  | case6 c1 rest hlong hshort ih =>
    have h' : ¬ ttt <:+: rest :=
      fun hh => h (infixOfTail hh)
    have e : stripSqlFence (c1 :: rest) = c1 :: stripSqlFence rest := by
      match rest, hlong, hshort with
      | [], _, _ => simp [stripSqlFence]
      | [x1], _, _ => simp [stripSqlFence]
      | [x1, x2], _, _ => simp [stripSqlFence]
      | [x1, x2, x3], _, _ => simp [stripSqlFence]
      | [x1, x2, x3, x4], _, _ => simp [stripSqlFence]
      | [x1, x2, x3, x4, x5], _, hs => exact absurd rfl (fun hh => hs x1 x2 x3 x4 x5 hh)
      | x1 :: x2 :: x3 :: x4 :: x5 :: x6 :: r, hl, _ =>
        exact absurd rfl (fun hh => hl x1 x2 x3 x4 x5 x6 r hh)
    rw [e, ih h']
  | case7 => rfl

theorem dropWhile_idem (p : Char → Bool) (l : List Char) :
    (l.dropWhile p).dropWhile p = l.dropWhile p := by
  induction l with
  | nil => rfl
  | cons c rest ih =>
    by_cases hc : p c
    · simp [List.dropWhile_cons, hc, ih]
    · simp [List.dropWhile_cons, hc]

theorem dropWhile_eq_self_of_head {p : Char → Bool} {l : List Char}
    (h : ∀ a, l.head? = some a → p a = false) : l.dropWhile p = l := by
  cases l with
  | nil => rfl
  | cons c rest => simp [List.dropWhile_cons, h c rfl]

theorem getLast?_of_suffix {l₁ l₂ : List Char} (h : l₁ <:+ l₂) (hne : l₁ ≠ []) :
    l₂.getLast? = l₁.getLast? := by
  obtain ⟨pre, rfl⟩ := h
  exact List.getLast?_append_of_ne_nil pre hne

theorem head?_dropWhile_false (p : Char → Bool) (l : List Char) {a : Char}
    (h : (l.dropWhile p).head? = some a) : p a = false := by
  have hne : l.dropWhile p ≠ [] := by
    intro hh
    rw [hh] at h
    cases h
  have e := List.head?_eq_head hne
  rw [e] at h
  injection h with h'
  rw [← h']
  exact List.head_dropWhile_not p l hne

/-- `trimChars` returns a contiguous slice of its input. -/
theorem trimChars_sliceOf (l : List Char) : trimChars l <:+: l := by
  have h1 : l.dropWhile Char.isWhitespace <:+ l := List.dropWhile_suffix _
  have h2 : (l.dropWhile Char.isWhitespace).reverse.dropWhile Char.isWhitespace <:+
      (l.dropWhile Char.isWhitespace).reverse := List.dropWhile_suffix _
  have h3 : trimChars l <+: l.dropWhile Char.isWhitespace := by
    have := List.reverse_prefix.mpr h2
    rwa [List.reverse_reverse] at this
  exact h3.isInfix.trans h1.isInfix

theorem trimChars_reverse_dropWhile (l : List Char) :
    (trimChars l).reverse.dropWhile Char.isWhitespace = (trimChars l).reverse := by
  unfold trimChars
  rw [List.reverse_reverse]
  exact dropWhile_idem _ _

theorem trimChars_dropWhile (l : List Char) :
    (trimChars l).dropWhile Char.isWhitespace = trimChars l := by
  by_cases ht2 :
      (l.dropWhile Char.isWhitespace).reverse.dropWhile Char.isWhitespace = []
  · unfold trimChars
    rw [ht2]
    rfl
  · apply dropWhile_eq_self_of_head
    intro a ha
    have h1 : ((l.dropWhile Char.isWhitespace).reverse.dropWhile
        Char.isWhitespace).getLast? = some a := by
      rw [← List.head?_reverse]
      exact ha
    have h2 : (l.dropWhile Char.isWhitespace).reverse.getLast? = some a := by
      rw [getLast?_of_suffix (List.dropWhile_suffix _) ht2]
      exact h1
    have h3 : (l.dropWhile Char.isWhitespace).head? = some a := by
      rw [← List.reverse_reverse (l.dropWhile Char.isWhitespace),
        List.head?_reverse]
      exact h2
    exact head?_dropWhile_false _ l h3

/-- JavaScript `trim` is idempotent. -/
theorem trimChars_idem (l : List Char) : trimChars (trimChars l) = trimChars l := by
  have e1 : trimChars (trimChars l) =
      (((trimChars l).dropWhile Char.isWhitespace).reverse.dropWhile
        Char.isWhitespace).reverse := rfl
  rw [e1, trimChars_dropWhile, trimChars_reverse_dropWhile, List.reverse_reverse]

/-- The normalized SQL contains no triple backtick, whatever the raw model
output was. -/
theorem cleanSql_no_fence (raw : String) : ¬ ttt <:+: (cleanSql raw).data := by
  intro hin
  have h1 : ttt <:+: stripFenceMarks (stripSqlFence (trimChars raw.data)) :=
    List.IsInfix.trans hin (trimChars_sliceOf _)
  exact (stripFenceMarks_main _).1 h1

/-- Normalizing a string that carries no fence marker and no surrounding
whitespace is a no-op. -/
theorem cleanSql_eq_self {s : String} (hf : ¬ ttt <:+: s.data)
    (ht : trimS s = s) : cleanSql s = s := by
  have ht' : trimChars s.data = s.data := congrArg String.data ht
  show String.mk (trimChars (stripFenceMarks (stripSqlFence (trimChars s.data)))) = s
  rw [ht', stripSqlFence_of_clean hf, stripFenceMarks_of_clean hf, ht']

/-- The normalization applied to the raw model output is idempotent. -/
theorem cleanSql_idem (raw : String) : cleanSql (cleanSql raw) = cleanSql raw := by
  have h0 : ¬ ttt <:+: (cleanSql raw).data := cleanSql_no_fence raw
  have htrim : trimChars (cleanSql raw).data = (cleanSql raw).data :=
    trimChars_idem _
  show String.mk (trimChars (stripFenceMarks (stripSqlFence
      (trimChars (cleanSql raw).data)))) = cleanSql raw
  rw [htrim, stripSqlFence_of_clean h0, stripFenceMarks_of_clean h0, htrim]

/-- Trimming the normalized SQL is a no-op (it already ends with a trim). -/
theorem trimS_cleanSql (raw : String) : trimS (cleanSql raw) = cleanSql raw :=
  congrArg String.mk (trimChars_idem _)

/-- A baseline environment in which every remote call succeeds. -/
def demoEnv : Env :=
  { getAllTableSchemas := .ok []
    getDatasetId := .ok "dataset"
    geminiInit := .ok ()
    generateContent := .ok "SELECT COUNT(*) AS cnt FROM dataset.orders"
    executeQuery := .ok [[("cnt", (42 : Int))]]
    explainContent := .ok "There are 42 rows." }

/-- C3: a request whose body `message` is absent, not a string, or empty
after trimming whitespace is answered with HTTP 400 and the fixed error
text, and no external capability (schema provider, SQL generator, warehouse
execution) is invoked. -/
theorem chat_invalid_message_short_circuits (env : Env) (m : Option JsVal)
    (h : m = none ∨ (∃ b, m = some (.nonString b)) ∨
      (∃ s, m = some (.strVal s) ∧ trimS s = "")) :
    (chatHandler env (.reqBody m)).1.status = 400 ∧
    (chatHandler env (.reqBody m)).1.error =
      some "Message is required and must be a non-empty string" ∧
    (chatHandler env (.reqBody m)).2.schemaCalled = false ∧
    (chatHandler env (.reqBody m)).2.generateCalled = false ∧
    (chatHandler env (.reqBody m)).2.executeCalled = false := by
  have hv : msgValid m = none := by
    rcases h with rfl | ⟨b, rfl⟩ | ⟨s, rfl, hs⟩
    · rfl
    · rfl
    · simp [msgValid, hs]
  simp [chatHandler, hv]

/-- Witness for C3 at the whitespace-only message `"   "`. -/
theorem chat_invalid_message_short_circuits_witness :
    (chatHandler demoEnv (.reqBody (some (.strVal "   ")))).1.status = 400 ∧
    (chatHandler demoEnv (.reqBody (some (.strVal "   ")))).1.error =
      some "Message is required and must be a non-empty string" ∧
    (chatHandler demoEnv (.reqBody (some (.strVal "   ")))).2.schemaCalled = false ∧
    (chatHandler demoEnv (.reqBody (some (.strVal "   ")))).2.generateCalled = false ∧
    (chatHandler demoEnv (.reqBody (some (.strVal "   ")))).2.executeCalled = false :=
  chat_invalid_message_short_circuits demoEnv (some (.strVal "   "))
    (Or.inr (Or.inr ⟨"   ", rfl, by decide⟩))

/-- C5: the normalization of model output maps the fenced block
around `SELECT 1` to exactly `SELECT 1`; it is a no-op on any string free
of fence markers and surrounding whitespace; and it is idempotent. -/
theorem generateSQL_normalization (s : String)
    (hf : ¬ ttt <:+: s.data) (ht : trimS s = s) :
    cleanSql "\x60\x60\x60sql\nSELECT 1\n\x60\x60\x60" = "SELECT 1" ∧
    cleanSql s = s ∧
    ∀ r : String, cleanSql (cleanSql r) = cleanSql r :=
  ⟨by decide, cleanSql_eq_self hf ht, cleanSql_idem⟩

/-- Witness for C5 at the already-clean string `"SELECT 2"`. -/
theorem generateSQL_normalization_witness :
    cleanSql "\x60\x60\x60sql\nSELECT 1\n\x60\x60\x60" = "SELECT 1" ∧
    cleanSql "SELECT 2" = "SELECT 2" ∧
    ∀ r : String, cleanSql (cleanSql r) = cleanSql r :=
  generateSQL_normalization "SELECT 2" (by decide) (by decide)

/-- C9: a request whose body is absent (destructuring the message throws)
is answered by the outer catch-all with HTTP 500, the error text
`Internal server error` and a details field, not with the 400 used for
invalid messages. -/
theorem chat_no_body_is_500 (env : Env) :
    (chatHandler env .noBody).1.status = 500 ∧
    (chatHandler env .noBody).1.error = some "Internal server error" ∧
    (chatHandler env .noBody).1.details.isSome = true ∧
    (chatHandler env .noBody).1.status ≠ 400 := by
  simp [chatHandler]

/-- C10: whatever the raw model output, the SQL string returned by
`generateSQL` contains no triple-backtick sequence: the replace calls
delete fence markers everywhere, not only at the edges. -/
theorem generateSQL_output_no_fence (raw : String) :
    ¬ jsIncludes (cleanSql raw) "\x60\x60\x60" := by
  have e : ("\x60\x60\x60" : String).data = ttt := by decide
  show ¬ ("\x60\x60\x60" : String).data <:+: (cleanSql raw).data
  rw [e]
  exact cleanSql_no_fence raw

/-- C1 (amended): for a valid message, when generation succeeds and the
normalized SQL is non-empty but its trimmed, uppercased form does not
contain `SELECT`, the handler answers 400 with the fixed safety error and
echoes the rejected SQL, and the warehouse execution capability is never
invoked. -/
theorem chat_safety_gate (env : Env) (m raw d : String)
    (hmsg : trimS m ≠ "")
    (hds : env.getDatasetId = .ok d)
    (hinit : env.geminiInit = .ok ())
    (hgen : env.generateContent = .ok raw)
    (hne : cleanSql raw ≠ "")
    (hsel : ¬ jsIncludes (jsToUpper (trimS (cleanSql raw))) "SELECT") :
    (chatHandler env (.reqBody (some (.strVal m)))).1.status = 400 ∧
    (chatHandler env (.reqBody (some (.strVal m)))).1.error =
      some "Only SELECT queries are allowed for security reasons" ∧
    (chatHandler env (.reqBody (some (.strVal m)))).1.generatedQuery =
      some (cleanSql raw) ∧
    (chatHandler env (.reqBody (some (.strVal m)))).2.executeCalled = false := by
  have hv : msgValid (some (.strVal m)) = some m := by
    simp [msgValid, hmsg]
  have htr : trimS (cleanSql raw) ≠ "" := by
    rw [trimS_cleanSql]
    exact hne
  simp [chatHandler, hv, hds, generateSQL, hinit, hgen, hne, htr, hsel]

/-- Witness for C1 (amended): the synthesizer returns `DROP TABLE x`. -/
theorem chat_safety_gate_witness :
    (chatHandler { demoEnv with generateContent := .ok "DROP TABLE x" }
      (.reqBody (some (.strVal "drop the table")))).1.status = 400 ∧
    (chatHandler { demoEnv with generateContent := .ok "DROP TABLE x" }
      (.reqBody (some (.strVal "drop the table")))).1.error =
      some "Only SELECT queries are allowed for security reasons" ∧
    (chatHandler { demoEnv with generateContent := .ok "DROP TABLE x" }
      (.reqBody (some (.strVal "drop the table")))).1.generatedQuery =
      some (cleanSql "DROP TABLE x") ∧
    (chatHandler { demoEnv with generateContent := .ok "DROP TABLE x" }
      (.reqBody (some (.strVal "drop the table")))).2.executeCalled = false :=
  chat_safety_gate _ "drop the table" "DROP TABLE x" "dataset"
    (by decide) rfl rfl rfl (by decide) (by decide)

/-- Counterexample to C1 as stated: when the model returns an empty string
the generated SQL (after normalization and uppercasing) does not contain
`SELECT`, yet the handler answers 500 `Generated SQL query is empty`, not
the claimed 400 safety rejection. -/
theorem chat_safety_gate_counterexample :
    ¬ jsIncludes (jsToUpper (trimS (cleanSql ""))) "SELECT" ∧
    (chatHandler { demoEnv with generateContent := .ok "" }
      (.reqBody (some (.strVal "list tables")))).1.status = 500 ∧
    (chatHandler { demoEnv with generateContent := .ok "" }
      (.reqBody (some (.strVal "list tables")))).1.status ≠ 400 ∧
    (chatHandler { demoEnv with generateContent := .ok "" }
      (.reqBody (some (.strVal "list tables")))).1.error =
      some "Generated SQL query is empty" := by
  decide

/-- C4: when `getAllTableSchemas` fails but the dataset id is available,
the handler still enters the SQL generator, with an empty schema sequence,
and the request proceeds exactly as it would with an empty schema list. -/
theorem chat_schema_failure_nonfatal (env : Env) (m emsg d : String)
    (hmsg : trimS m ≠ "")
    (hsch : env.getAllTableSchemas = .error emsg)
    (hds : env.getDatasetId = .ok d) :
    (chatHandler env (.reqBody (some (.strVal m)))).2.generateCalled = true ∧
    (chatHandler env (.reqBody (some (.strVal m)))).2.genSchemasArg = some [] ∧
    chatHandler env (.reqBody (some (.strVal m))) =
      chatHandler { env with getAllTableSchemas := .ok [] }
        (.reqBody (some (.strVal m))) := by
  obtain ⟨sch, dsid, gi, gc, ex, exp⟩ := env
  simp only at hsch hds
  subst hsch; subst hds
  have hv : msgValid (some (.strVal m)) = some m := by
    simp [msgValid, hmsg]
  refine ⟨?_, ?_, ?_⟩
  · simp only [chatHandler, hv, generateSQL, executeQueryService]
    rcases gi with gim | u <;> rcases gc with gcm | gcr <;>
      rcases ex with exm | exr <;> (repeat' split) <;> rfl
  · simp only [chatHandler, hv, generateSQL, executeQueryService]
    rcases gi with gim | u <;> rcases gc with gcm | gcr <;>
      rcases ex with exm | exr <;> (repeat' split) <;> rfl
  · simp only [chatHandler, hv, generateSQL, executeQueryService, explainResults]

/-- Witness for C4: schema retrieval fails, everything else succeeds. -/
theorem chat_schema_failure_nonfatal_witness :
    (chatHandler { demoEnv with getAllTableSchemas := .error "metadata down" }
      (.reqBody (some (.strVal "count rows")))).2.generateCalled = true ∧
    (chatHandler { demoEnv with getAllTableSchemas := .error "metadata down" }
      (.reqBody (some (.strVal "count rows")))).2.genSchemasArg = some [] ∧
    chatHandler { demoEnv with getAllTableSchemas := .error "metadata down" }
      (.reqBody (some (.strVal "count rows"))) =
      chatHandler { { demoEnv with getAllTableSchemas := .error "metadata down" }
          with getAllTableSchemas := .ok [] }
        (.reqBody (some (.strVal "count rows"))) :=
  chat_schema_failure_nonfatal _ "count rows" "metadata down" "dataset"
    (by decide) rfl rfl

/-- C6 (amended): a missing required configuration value surfaces lazily,
inside the request, as a 500 `Failed to generate SQL query` carrying the
configuration message: via `getDatasetId` when the warehouse configuration
is absent, and via the Gemini `_initialize` when the API key is absent. -/
theorem chat_missing_config_is_request_error (env : Env) (m : String)
    (hmsg : trimS m ≠ "") :
    (∀ cfgMsg, env.getDatasetId = .error cfgMsg →
      (chatHandler env (.reqBody (some (.strVal m)))).1.status = 500 ∧
      (chatHandler env (.reqBody (some (.strVal m)))).1.error =
        some "Failed to generate SQL query" ∧
      (chatHandler env (.reqBody (some (.strVal m)))).1.details = some cfgMsg) ∧
    (∀ keyMsg d, env.getDatasetId = .ok d → env.geminiInit = .error keyMsg →
      (chatHandler env (.reqBody (some (.strVal m)))).1.status = 500 ∧
      (chatHandler env (.reqBody (some (.strVal m)))).1.error =
        some "Failed to generate SQL query" ∧
      (chatHandler env (.reqBody (some (.strVal m)))).1.details = some keyMsg) := by
  have hv : msgValid (some (.strVal m)) = some m := by
    simp [msgValid, hmsg]
  constructor
  · intro cfgMsg hds
    simp [chatHandler, hv, hds]
  · intro keyMsg d hds hinit
    simp [chatHandler, hv, hds, generateSQL, hinit]

/-- Witness for C6 (amended): the project id is missing. -/
theorem chat_missing_config_is_request_error_witness :
    (chatHandler { demoEnv with
        getDatasetId := .error "BIGQUERY_PROJECT_ID environment variable is not set" }
      (.reqBody (some (.strVal "count rows")))).1.status = 500 ∧
    (chatHandler { demoEnv with
        getDatasetId := .error "BIGQUERY_PROJECT_ID environment variable is not set" }
      (.reqBody (some (.strVal "count rows")))).1.error =
      some "Failed to generate SQL query" ∧
    (chatHandler { demoEnv with
        getDatasetId := .error "BIGQUERY_PROJECT_ID environment variable is not set" }
      (.reqBody (some (.strVal "count rows")))).1.details =
      some "BIGQUERY_PROJECT_ID environment variable is not set" :=
  (chat_missing_config_is_request_error _ "count rows" (by decide)).1
    "BIGQUERY_PROJECT_ID environment variable is not set" rfl

/-- Counterexample to C6 as stated: with the warehouse project id unset the
handler does return a per-request error response caused by the missing
configuration value. -/
theorem chat_missing_config_counterexample :
    (chatHandler { demoEnv with
        getDatasetId := .error "BIGQUERY_PROJECT_ID environment variable is not set" }
      (.reqBody (some (.strVal "count")))).1.status = 500 ∧
    (chatHandler { demoEnv with
        getDatasetId := .error "BIGQUERY_PROJECT_ID environment variable is not set" }
      (.reqBody (some (.strVal "count")))).1.details =
      some "BIGQUERY_PROJECT_ID environment variable is not set" := by
  decide

/-- C2 (amended): when the text-generation call inside `explainResults`
fails, the request still succeeds with HTTP 200, but the explanation is the
fixed string `Query executed successfully.` produced by the internal catch
of `explainResults`; the count-bearing fallback of the route is not what
the client sees. -/
theorem chat_explain_failure_fallback (env : Env) (m raw emsg d : String)
    (rows : List Row)
    (hmsg : trimS m ≠ "")
    (hds : env.getDatasetId = .ok d)
    (hinit : env.geminiInit = .ok ())
    (hgen : env.generateContent = .ok raw)
    (hne : cleanSql raw ≠ "")
    (hsel : jsIncludes (jsToUpper (trimS (cleanSql raw))) "SELECT")
    (hex : env.executeQuery = .ok rows)
    (hexp : env.explainContent = .error emsg) :
    (chatHandler env (.reqBody (some (.strVal m)))).1.status = 200 ∧
    (chatHandler env (.reqBody (some (.strVal m)))).1.explanation =
      some "Query executed successfully." ∧
    (chatHandler env (.reqBody (some (.strVal m)))).1.resultCount =
      some rows.length := by
  have hv : msgValid (some (.strVal m)) = some m := by
    simp [msgValid, hmsg]
  have htr : trimS (cleanSql raw) ≠ "" := by
    rw [trimS_cleanSql]
    exact hne
  simp [chatHandler, hv, hds, generateSQL, hinit, hgen, hne, htr, hsel,
    executeQueryService, hex, explainResults, hexp]

/-- Environment in which the explanation model call fails while everything
else succeeds. -/
def explainFailEnv : Env :=
  { demoEnv with
    generateContent := .ok "SELECT 1"
    explainContent := .error "model down" }

/-- Witness for C2 (amended): the explanation model call fails, one row is
returned. -/
theorem chat_explain_failure_fallback_witness :
    (chatHandler explainFailEnv
      (.reqBody (some (.strVal "count")))).1.status = 200 ∧
    (chatHandler explainFailEnv
      (.reqBody (some (.strVal "count")))).1.explanation =
      some "Query executed successfully." ∧
    (chatHandler explainFailEnv
      (.reqBody (some (.strVal "count")))).1.resultCount =
      some ([[("cnt", (42 : Int))]] : List Row).length :=
  chat_explain_failure_fallback _ "count" "SELECT 1" "model down" "dataset"
    [[("cnt", (42 : Int))]]
    (by decide) rfl rfl rfl (by decide) (by decide) rfl rfl

/-- Counterexample to C2 as stated: the explanation model call fails while
one row was returned, yet the explanation is the count-free string
`Query executed successfully.`, which does not contain the literal result
count `1`. -/
theorem chat_explain_failure_counterexample :
    (chatHandler { demoEnv with explainContent := .error "model down" }
      (.reqBody (some (.strVal "count")))).1.status = 200 ∧
    (chatHandler { demoEnv with explainContent := .error "model down" }
      (.reqBody (some (.strVal "count")))).1.resultCount = some 1 ∧
    (chatHandler { demoEnv with explainContent := .error "model down" }
      (.reqBody (some (.strVal "count")))).1.explanation =
      some "Query executed successfully." ∧
    ¬ jsIncludes "Query executed successfully." "1" := by
  decide

/-- C8: when generation, the safety gate and execution all succeed, the
response is HTTP 200 with `success = true`, `userQuery` the request
message, `sqlQuery` the normalized synthesizer output, `results` the rows
returned by execution and `resultCount` their number. -/
theorem chat_success_response (env : Env) (m raw d : String) (rows : List Row)
    (hmsg : trimS m ≠ "")
    (hds : env.getDatasetId = .ok d)
    (hinit : env.geminiInit = .ok ())
    (hgen : env.generateContent = .ok raw)
    (hne : cleanSql raw ≠ "")
    (hsel : jsIncludes (jsToUpper (trimS (cleanSql raw))) "SELECT")
    (hex : env.executeQuery = .ok rows) :
    (chatHandler env (.reqBody (some (.strVal m)))).1.status = 200 ∧
    (chatHandler env (.reqBody (some (.strVal m)))).1.success = some true ∧
    (chatHandler env (.reqBody (some (.strVal m)))).1.userQuery = some m ∧
    (chatHandler env (.reqBody (some (.strVal m)))).1.sqlQuery =
      some (cleanSql raw) ∧
    (chatHandler env (.reqBody (some (.strVal m)))).1.results = some rows ∧
    (chatHandler env (.reqBody (some (.strVal m)))).1.resultCount =
      some rows.length := by
  have hv : msgValid (some (.strVal m)) = some m := by
    simp [msgValid, hmsg]
  have htr : trimS (cleanSql raw) ≠ "" := by
    rw [trimS_cleanSql]
    exact hne
  simp [chatHandler, hv, hds, generateSQL, hinit, hgen, hne, htr, hsel,
    executeQueryService, hex]

/-- Witness for C8: the end-to-end example of the spec, with the
synthesizer returning `SELECT COUNT(*) AS cnt FROM dataset.orders` and
execution returning one row `{cnt: 42}`. -/
theorem chat_success_response_witness :
    (chatHandler demoEnv
      (.reqBody (some (.strVal "Count the rows in table orders")))).1.status = 200 ∧
    (chatHandler demoEnv
      (.reqBody (some (.strVal "Count the rows in table orders")))).1.success =
      some true ∧
    (chatHandler demoEnv
      (.reqBody (some (.strVal "Count the rows in table orders")))).1.userQuery =
      some "Count the rows in table orders" ∧
    (chatHandler demoEnv
      (.reqBody (some (.strVal "Count the rows in table orders")))).1.sqlQuery =
      some "SELECT COUNT(*) AS cnt FROM dataset.orders" ∧
    (chatHandler demoEnv
      (.reqBody (some (.strVal "Count the rows in table orders")))).1.results =
      some [[("cnt", (42 : Int))]] ∧
    (chatHandler demoEnv
      (.reqBody (some (.strVal "Count the rows in table orders")))).1.resultCount =
      some 1 := by
  have h := chat_success_response demoEnv "Count the rows in table orders"
    "SELECT COUNT(*) AS cnt FROM dataset.orders" "dataset"
    [[("cnt", (42 : Int))]]
    (by decide) rfl rfl rfl (by decide) (by decide) rfl
  rw [show cleanSql "SELECT COUNT(*) AS cnt FROM dataset.orders" =
    "SELECT COUNT(*) AS cnt FROM dataset.orders" from by decide] at h
  exact h

/-- C7: the warehouse region is resolved at most once and the cached value
is stable: a truthy stored location is returned unchanged; from an
unresolved state one call stores a non-empty location which every later
call — in particular every later `executeQuery` — observes unchanged, with
no further metadata query; the value stored by that first call is the
metadata-reported location when the metadata call succeeds with a truthy
location (and in general `metadata.location || 'US'`), and the fixed
default `US` when the metadata call fails. -/
theorem datasetLocation_resolved_once (st : BQState) (env : BQEnv) :
    (∀ loc, st.datasetLocation = some loc → loc ≠ "" →
      getDatasetLocation st env = (loc, st)) ∧
    (st.datasetLocation = none →
      (getDatasetLocation st env).2.datasetLocation =
        some (getDatasetLocation st env).1 ∧
      (getDatasetLocation st env).1 ≠ "" ∧
      (∀ env', getDatasetLocation (getDatasetLocation st env).2 env' =
        ((getDatasetLocation st env).1, (getDatasetLocation st env).2)) ∧
      (∀ env' job q,
        (executeQueryBQ (getDatasetLocation st env).2 env' job q).2.1.location =
          (getDatasetLocation st env).1 ∧
        (executeQueryBQ (getDatasetLocation st env).2 env' job q).2.2 =
          (getDatasetLocation st env).2)) ∧
    (∀ s, st.datasetLocation = none → env.metadataLocation = .ok (some s) →
      s ≠ "" → (getDatasetLocation st env).1 = s) ∧
    (∀ v, st.datasetLocation = none → env.metadataLocation = .ok v →
      (getDatasetLocation st env).1 = jsOrDefault v "US") ∧
    (∀ emsg, st.datasetLocation = none → env.metadataLocation = .error emsg →
      (getDatasetLocation st env).1 = "US") := by
  obtain ⟨stloc⟩ := st
  refine ⟨?_, ?_, ?_, ?_, ?_⟩
  · intro loc hl hne
    simp only at hl
    subst hl
    simp [getDatasetLocation, hne]
  · intro h0
    simp only at h0
    subst h0
    obtain ⟨meta⟩ := env
    have hfetch : ∀ r : String × BQState,
        fetchDatasetLocation ⟨meta⟩ = r →
        r.2.datasetLocation = some r.1 ∧ r.1 ≠ "" := by
      intro r hr
      rcases meta with mm | v
      · simp [fetchDatasetLocation] at hr
        rw [← hr]
        exact ⟨rfl, by decide⟩
      · rcases v with _ | s
        · simp [fetchDatasetLocation, jsOrDefault] at hr
          rw [← hr]
          exact ⟨rfl, by decide⟩
        · by_cases hs : s = ""
          · simp [fetchDatasetLocation, jsOrDefault, hs] at hr
            rw [← hr]
            exact ⟨rfl, by decide⟩
          · simp [fetchDatasetLocation, jsOrDefault, hs] at hr
            rw [← hr]
            exact ⟨rfl, hs⟩
    have hmain : getDatasetLocation ⟨none⟩ ⟨meta⟩ = fetchDatasetLocation ⟨meta⟩ := by
      simp [getDatasetLocation]
    obtain ⟨hcache, hne⟩ := hfetch (getDatasetLocation ⟨none⟩ ⟨meta⟩) hmain.symm
    refine ⟨hcache, hne, ?_, ?_⟩
    · intro env'
      rw [getDatasetLocation, hcache]
      simp [hne]
    · intro env' job q
      have hb : getDatasetLocation (getDatasetLocation ⟨none⟩ ⟨meta⟩).2 env' =
          ((getDatasetLocation ⟨none⟩ ⟨meta⟩).1,
            (getDatasetLocation ⟨none⟩ ⟨meta⟩).2) := by
        rw [getDatasetLocation, hcache]
        simp [hne]
      simp [executeQueryBQ, hb]
  · intro s h0 hm hs
    simp only at h0
    subst h0
    simp [getDatasetLocation, hm, fetchDatasetLocation, jsOrDefault, hs]
  · intro v h0 hm
    simp only at h0
    subst h0
    simp [getDatasetLocation, hm, fetchDatasetLocation]
  · intro emsg h0 hm
    simp only at h0
    subst h0
    simp [getDatasetLocation, hm, fetchDatasetLocation]

/-- Witness for C7 at an unresolved state whose metadata call reports
region `EU`: the stored and returned location is exactly `EU`. -/
theorem datasetLocation_resolved_once_witness :
    (getDatasetLocation ⟨none⟩ ⟨.ok (some "EU")⟩).2.datasetLocation =
      some (getDatasetLocation ⟨none⟩ ⟨.ok (some "EU")⟩).1 ∧
    (getDatasetLocation ⟨none⟩ ⟨.ok (some "EU")⟩).1 ≠ "" ∧
    (∀ env', getDatasetLocation (getDatasetLocation ⟨none⟩ ⟨.ok (some "EU")⟩).2 env' =
      ((getDatasetLocation ⟨none⟩ ⟨.ok (some "EU")⟩).1,
        (getDatasetLocation ⟨none⟩ ⟨.ok (some "EU")⟩).2)) ∧
    (∀ env' job q,
      (executeQueryBQ (getDatasetLocation ⟨none⟩ ⟨.ok (some "EU")⟩).2
          env' job q).2.1.location =
        (getDatasetLocation ⟨none⟩ ⟨.ok (some "EU")⟩).1 ∧
      (executeQueryBQ (getDatasetLocation ⟨none⟩ ⟨.ok (some "EU")⟩).2
          env' job q).2.2 =
        (getDatasetLocation ⟨none⟩ ⟨.ok (some "EU")⟩).2) ∧
    (getDatasetLocation ⟨none⟩ ⟨.ok (some "EU")⟩).1 = "EU" := by
  obtain ⟨h1, h2, h3, h4⟩ :=
    (datasetLocation_resolved_once ⟨none⟩ ⟨.ok (some "EU")⟩).2.1 rfl
  exact ⟨h1, h2, h3, h4,
    (datasetLocation_resolved_once ⟨none⟩ ⟨.ok (some "EU")⟩).2.2.1 "EU" rfl rfl
      (by decide)⟩

end ConvAnalytics
